import Mathlib

/-!
Verification of the FORT validator core (TAL ingestion, per-TAL validation
dispatch, and the RTR PDU handler) against its specification.

The development shallowly embeds the functions of `src/object/tal.c` and
`src/rtr/pdu_handler.c`.  External collaborators that are not part of the
sources (the repository fetcher, the crypto layer, `rtr/db/vrps.c`,
`err_pdu.c`, the PDU sender) are modelled from the specification; each such
definition carries a doc comment saying so.  File contents are embedded as
`List Char` (the C code walks NUL-terminated buffers; end of list stands for
the terminator), machine integers as `Int`/`Nat`.
-/

/-! ## Error numbers (errno values used by the sources) -/

def EINVAL : Int := 22

def ENOENT : Int := 2

def EINTR : Int := 4

/-- common.h macro `ENSURE_NEGATIVE`: force an errno-style code negative. -/
def ENSURE_NEGATIVE (e : Int) : Int := if e < 0 then e else -e

/-! ## TAL parser (`src/object/tal.c`)

`read_content` walks the file buffer once: a `#`-comment section, a URI
section terminated by a blank line, then the base64 SubjectPublicKeyInfo
section spanning the rest of the file. -/

/-- `find_newline` of tal.c: scan for `'\n'` or `"\r\n"`.  Returns the text
before the newline (the C code overwrites the terminator with NUL, turning the
current pointer into exactly this line), whether the terminator started with a
carriage return, and the text after the newline (the C pointer `nl + cr + 1`).
Returns `none` when the buffer ends first (C: NULL). -/
def find_newline : List Char → Option (List Char × Bool × List Char)
  | [] => none
  | c :: rest =>
    if c = '\n' then some ([], false, rest)
    else if c = '\r' then
      match rest with
      | '\n' :: rest2 => some ([], true, rest2)
      | _ => (find_newline rest).map (fun p => (c :: p.1, p.2.1, p.2.2))
    else (find_newline rest).map (fun p => (c :: p.1, p.2.1, p.2.2))

/-- C `isspace` (default locale): space, tab, newline, vertical tab, form
feed, carriage return. -/
def c_isspace (c : Char) : Bool :=
  c = ' ' || c = '\t' || c = '\n' || c = Char.ofNat 11 || c = Char.ofNat 12 || c = '\r'

/-- `is_blank` of tal.c: every character up to the NUL is whitespace. -/
def is_blank (l : List Char) : Bool := l.all c_isspace

/-- `str_starts_with` of common.c (used by `add_uri`). -/
def str_starts_with (s pre : List Char) : Bool := pre.isPrefixOf s

inductive UriScheme
  | rsync
  | https
deriving DecidableEq

/-- The URI as `add_uri` records it: the scheme tag passed to `uri_create`
(`UT_RSYNC` / `UT_HTTPS`) plus the URI text.  `uri_create` itself lives in
uri.c (not under src/) and is modelled from the spec as always succeeding:
the spec's URI model has no failure mode for creation. -/
structure TalUri where
  scheme : UriScheme
  text : List Char
deriving DecidableEq

/-- `add_uri` of tal.c: a URI line must begin with `rsync://` or `https://`;
anything else is the hard error "TAL has non-RSYNC/HTTPS URI". -/
def add_uri (uri : List Char) : Option TalUri :=
  if str_starts_with uri (String.toList "rsync://") then some { scheme := UriScheme.rsync, text := uri }
  else if str_starts_with uri (String.toList "https://") then some { scheme := UriScheme.https, text := uri }
  else none

/-- The errors `read_content` / `tal_init` can report, one constructor per
`pr_op_err` call site in tal.c. -/
inductive TalParseError
  | premature (line : List Char)   -- "The TAL seems to end prematurely at line '%s'."
  | badScheme (uri : List Char)    -- "TAL has non-RSYNC/HTTPS URI: %s"
  | missingPublicKey               -- "The TAL seems to be missing the public key."
  | blankBeforeEnd                 -- "There seems to be an empty/blank line before the end of the URI section."
  | cannotDecode                   -- "Cannot decode the public key."
deriving DecidableEq

/-- The parsed TAL: URI list plus decoded SPKI bytes (`struct tal`'s
`file_name` and cache handle are bookkeeping outside the parse itself). -/
structure Tal where
  uris : List TalUri
  spki : List Nat
deriving DecidableEq

/-- `strchr(fc, '\n')` as used by the comment loop; returns the text after
the first `'\n'` (the C pointer `nl + 1`), or `none` at end of buffer. -/
def strchr_nl : List Char → Option (List Char)
  | [] => none
  | c :: rest => if c = '\n' then some rest else strchr_nl rest

/-- The comment section loop of `read_content`: while the current line starts
with `#`, skip past its `'\n'`; a comment line without a newline is the
premature-end error (carrying the text the error message prints).  The
recursion consumes at least one character per step, so the fuel
`length + 1` supplied by `read_content_pre` never runs out; the fuel-0 value
mirrors the premature error and is unreachable. -/
def skip_comments : Nat → List Char → Except (List Char) (List Char)
  | 0, fc => Except.error fc
  | fuel + 1, fc =>
    match fc with
    | [] => Except.ok []
    | c :: rest =>
      if c = '#' then
        match strchr_nl (c :: rest) with
        | none => Except.error (c :: rest)
        | some after => skip_comments fuel after
      else Except.ok (c :: rest)

/-- The URI section loop of `read_content` (the do/while): split off one line;
a blank line ends the section (C `break`), otherwise the line must be a
rsync/https URI; running out of buffer right after a URI line is the
missing-public-key error.  As with `skip_comments`, each step consumes at
least one character, so fuel `length + 1` suffices and the fuel-0 value is
unreachable. -/
def parse_uris : Nat → List Char → List TalUri →
    Except TalParseError (List TalUri × List Char)
  | 0, fc, _ => Except.error (TalParseError.premature fc)
  | fuel + 1, fc, acc =>
    match find_newline fc with
    | none => Except.error (TalParseError.premature fc)
    | some (line, _cr, rest) =>
      if is_blank line then Except.ok (acc, rest)
      else
        match add_uri line with
        | none => Except.error (TalParseError.badScheme line)
        | some u =>
          if rest.isEmpty then Except.error TalParseError.missingPublicKey
          else parse_uris fuel rest (acc ++ [u])

/-- `read_content` up to (but excluding) the `base64_decode` call: comment
section, URI section, and the empty-URI-list check.  On success it returns
the URI list and the remainder of the buffer (`nl + cr + 1`), which is what
the C code hands to `base64_decode`. -/
def read_content_pre (fc : List Char) : Except TalParseError (List TalUri × List Char) :=
  match skip_comments (fc.length + 1) fc with
  | Except.error line => Except.error (TalParseError.premature line)
  | Except.ok fc1 =>
    match parse_uris (fc1.length + 1) fc1 [] with
    | Except.error e => Except.error e
    | Except.ok (uris, rest) =>
      if uris.isEmpty then Except.error TalParseError.blankBeforeEnd
      else Except.ok (uris, rest)

/-- `read_content` of tal.c.  `b64` stands for `base64_decode`
(crypto/base64.c, not under src/): it is kept as a parameter, `none` meaning
the decode failed. -/
def read_content (fc : List Char) (b64 : List Char → Option (List Nat)) :
    Except TalParseError Tal :=
  match read_content_pre fc with
  | Except.error e => Except.error e
  | Except.ok (uris, rest) =>
    match b64 rest with
    | none => Except.error TalParseError.cannotDecode
    | some spki => Except.ok { uris := uris, spki := spki }

/-- `tal_init` of tal.c, given the loaded file contents (`file_load` is
filesystem I/O outside the embedding).  On a `read_content` error the URI
list is cleaned up and no TAL is produced; on success the TAL is returned
(the cache handle creation is outside the parse). -/
def tal_init (content : List Char) (b64 : List Char → Option (List Nat)) :
    Except TalParseError Tal :=
  read_content content b64

/-! ## Per-TAL certificate walk (`handle_tal_uri` of tal.c)

The certificate traversal itself (`certificate_traverse`), the validation
state (`validation_prepare`, `validation_pubkey_state`) and the URI helpers
live outside src/; their outcomes are inputs of the embedding. -/

/-- `enum pubkey_state` consulted after a failed root traversal. -/
inductive PubkeyState
  | PKS_INVALID
  | PKS_VALID
  | PKS_UNTESTED
deriving DecidableEq

/-- A deferred certificate as popped from the cert stack: the parent
publication point and the child URI (modelled as identifiers; their content
is irrelevant to the control flow of tal.c). -/
structure DeferredCert where
  pp : Nat
  uri : Nat
deriving DecidableEq

/-- One `certificate_traverse` call made by `handle_tal_uri`: the root
certificate, or a deferred child popped from the stack. -/
inductive Traversal
  | root
  | child (d : DeferredCert)
deriving DecidableEq

/-- Modelled from the spec: uri.c is not under src/; a TAL URI points to a
certificate exactly when its file name carries the `.cer` extension (the
source's own message: "Expected .cer, got ..."). -/
def uri_is_certificate (u : List Char) : Bool :=
  (String.toList ".cer").isSuffixOf u

/-- `deferstack_pop` of cert_stack.c as used by tal.c: popping an empty stack
yields the sentinel `-ENOENT` (treated by the caller as normal termination);
otherwise the top entry is transferred to the caller. -/
def deferstack_pop (s : List DeferredCert) : Int × Option (DeferredCert × List DeferredCert) :=
  match s with
  | [] => (-ENOENT, none)
  | d :: rest => (0, some (d, rest))

/-- The pop/traverse loop at the bottom of `handle_tal_uri`: pop until the
`-ENOENT` sentinel (then the result is 0), calling `certificate_traverse`
on each popped entry and deliberately ignoring its result ("remaining
certificates are unrelated, so they should not be affected").  Returns the
final error together with the traversals performed. -/
def deferredLoop (trav : DeferredCert → Int) : List DeferredCert → Int × List Traversal
  | [] => (0, [])
  | d :: rest =>
    let _ := trav d
    let r := deferredLoop trav rest
    (r.1, Traversal.child d :: r.2)

/-- The inputs `handle_tal_uri` draws from its collaborators: the
`validation_prepare` result, the URI under validation, the result of the root
`certificate_traverse`, the public key state it would report on failure, and
the deferred certificates the root traversal pushed. -/
structure TalUriInput where
  prepError : Int
  uri : List Char
  root_traverse_error : Int
  pubkey_state : PubkeyState
  deferred : List DeferredCert

/-- `handle_tal_uri` of tal.c, returning its error code together with the
sequence of `certificate_traverse` calls it performed.  `trav` gives the
result of each deferred-child traversal (ignored by the source).  The
`pr_crit` paths (unknown pubkey state, missing cert stack) terminate the
process and are unrepresented: the state enum and the stack always exist
here. -/
def handle_tal_uri (inp : TalUriInput) (trav : DeferredCert → Int) : Int × List Traversal :=
  if inp.prepError ≠ 0 then (ENSURE_NEGATIVE inp.prepError, [])
  else if uri_is_certificate inp.uri = false then ((EINVAL : Int), [])
  else if inp.root_traverse_error ≠ 0 then
    (match inp.pubkey_state with
     | PubkeyState.PKS_INVALID => (EINVAL : Int)
     | PubkeyState.PKS_VALID => ENSURE_NEGATIVE inp.root_traverse_error
     | PubkeyState.PKS_UNTESTED => ENSURE_NEGATIVE inp.root_traverse_error,
     [Traversal.root])
  else
    let r := deferredLoop trav inp.deferred
    (r.1, Traversal.root :: r.2)

/-! ## Validation workers and the dispatcher (tal.c) -/

/-- A validated payload record (spec §3): a ROA entry or a router key.
`db_table` (rtr/db/db_table.c) is not under src/; per the spec it is an
in-memory set of VRPs, embedded as a list. -/
inductive VRP
  | roa (asn : Nat) (addr : Nat) (prefixLen : Nat) (maxLength : Nat) (family : Nat)
  | routerKey (asn : Nat) (ski : List Nat) (spki : List Nat)
deriving DecidableEq

abbrev DbTable := List VRP

/-- Modelled from the spec: `db_table_join` absorbs the second table's
entries into the first (set union; spec §3 and invariant I2).  The second
argument mirrors the `thread->db` pointer, which is non-null exactly for
workers that succeeded. -/
def db_table_join (d : DbTable) (o : Option DbTable) : DbTable :=
  d ++ o.getD []

/-- What the dispatcher reads from a joined `struct validation_thread`:
its error code and its result table (`none` = the NULL pointer). -/
structure ThreadState where
  error : Int
  db : Option DbTable
deriving DecidableEq

/-- `do_file_validation` of tal.c, abstracted over its collaborators'
outcomes: the `tal_init` error, the `cache_download_alt` error, and the
contents `args.db` accumulated by the traversals.  On a download/traversal
failure the partially filled table is destroyed and `thread->db` keeps its
initial NULL. -/
def do_file_validation (talInitError downloadError : Int) (builtTable : DbTable) :
    ThreadState :=
  if talInitError ≠ 0 then { error := talInitError, db := none }
  else if downloadError ≠ 0 then { error := downloadError, db := none }
  else { error := 0, db := some builtTable }

/-- One iteration of the join loop of `perform_standalone_validation`:
record the joined worker's error (a later success never clears an earlier
error), and merge its table only while no error has been seen — the first
table is adopted, later ones joined. -/
def join_worker (acc : Option DbTable × Int) (t : ThreadState) : Option DbTable × Int :=
  let error := if t.error ≠ 0 then t.error else acc.2
  if error = 0 then
    (match acc.1 with
     | none => t.db
     | some d => some (db_table_join d t.db), error)
  else (acc.1, error)

/-- `perform_standalone_validation` of tal.c from the join loop on, given the
states of the joined workers (thread spawning and `pthread_join` are OS
concerns; the source joins every thread in list order regardless of
failures).  If any worker errored, the accumulated table is destroyed and
NULL is returned. -/
def perform_standalone_validation (threads : List ThreadState) : Option DbTable :=
  let r := threads.foldl join_worker (none, 0)
  if r.2 ≠ 0 then none else r.1

/-! ## RTR PDU handler (`src/rtr/pdu_handler.c`)

The handlers write PDUs to a socket through pdu_sender.c / err_pdu.c (not
under src/).  The embedding records the PDUs written, in order, and lets an
oracle `o : Nat → Int` give each write's result (`o n` is the result of the
(n+1)-th write; 0 = success), preserving the handlers' early exits on send
failure. -/

/-- RTR PDU header (pdu.h): `{ protocol_version, pdu_type, session_id,
length }`. -/
structure PduHeader where
  protocol_version : Nat
  pdu_type : Nat
  session_id : Nat
  length : Nat
deriving DecidableEq

/-- `struct serial_query_pdu`: header plus the router's serial number. -/
structure SerialQueryPdu where
  header : PduHeader
  serial_number : Nat
deriving DecidableEq

/-- `struct reset_query_pdu`: header only. -/
structure ResetQueryPdu where
  header : PduHeader
deriving DecidableEq

/-- An outbound PDU as the senders emit it (serialization details such as the
protocol version field are wire concerns; an Error Report records its code
and the echoed offending header, if any). -/
inductive OutPdu
  | errorReport (code : Nat) (echoed : Option PduHeader)
  | cacheResponse
  | payload (v : VRP)
  | endOfData
  | cacheReset
deriving DecidableEq

/-- Error Report codes used by the handlers (err_pdu.h; spec §6). -/
def ERR_PDU_CORRUPT_DATA : Nat := 0

def ERR_PDU_NO_DATA_AVAILABLE : Nat := 2

def ERR_PDU_UNSUP_PDU_TYPE : Nat := 5

/-- Modelled from the spec (§6): every Error Report code is fatal except
`No Data Available (2)`. -/
def err_pdu_is_fatal (code : Nat) : Bool :=
  [0, 1, 3, 4, 5, 6, 7, 8].contains code && code ≠ 2

/-- `deltas_db_status` result enum of rtr/db/vrps.h. -/
inductive DeltaStatus
  | NO_DATA_AVAILABLE
  | NO_DIFF
  | DIFF_AVAILABLE
  | DIFF_UNDETERMINED
deriving DecidableEq

/-- The delta store state (spec §3/§4.5): whether a publication has ever
occurred, the current serial, and the serials present in the history. -/
structure DeltaStore where
  hasData : Bool
  currentSerial : Nat
  history : List Nat
deriving DecidableEq

/-- Modelled from the spec (§4.5): `deltas_db_status` of rtr/db/vrps.c is not
under src/.  With no publication ever, NO_DATA_AVAILABLE.  For a requested
serial: NO_DIFF when it equals the current serial, DIFF_AVAILABLE when the
history holds it, DIFF_UNDETERMINED otherwise.  A query without a serial (the
NULL argument of `handle_reset_query_pdu`) asks for the full snapshot, which
is available whenever data is: DIFF_AVAILABLE. -/
def deltas_db_status (s : DeltaStore) (serial : Option Nat) : DeltaStatus :=
  if s.hasData = false then DeltaStatus.NO_DATA_AVAILABLE
  else
    match serial with
    | none => DeltaStatus.DIFF_AVAILABLE
    | some q =>
      if q = s.currentSerial then DeltaStatus.NO_DIFF
      else if s.history.contains q then DeltaStatus.DIFF_AVAILABLE
      else DeltaStatus.DIFF_UNDETERMINED

/-- The RTR server state a handler consults: the per-version session id
(`get_current_session_id`), the last serial (`get_last_serial_number`), the
delta store, and the current full snapshot the payload sender serializes. -/
structure ServerState where
  sessionId : Nat → Nat
  lastSerial : Nat
  store : DeltaStore
  snapshot : List VRP

/-- One `send(2)` of a serialized PDU: append it to the outbound trace; the
oracle gives the write's result. -/
def sendPdu (o : Nat → Int) (tr : List OutPdu) (p : OutPdu) : List OutPdu × Int :=
  (tr ++ [p], o tr.length)

/-- `err_pdu_send` of err_pdu.c, modelled from the spec: it serializes and
sends an Error Report (echoing `echoed` when given), and its result tells the
caller whether the session must go down — nonzero (`-EINVAL`) for the fatal
codes (spec §7: protocol violations are answered with an Error Report and a
close), 0 for the non-fatal `No Data Available`. -/
def err_pdu_send (o : Nat → Int) (tr : List OutPdu) (code : Nat)
    (echoed : Option PduHeader) : List OutPdu × Int :=
  let r := sendPdu o tr (OutPdu.errorReport code echoed)
  (r.1, if r.2 ≠ 0 then r.2 else if err_pdu_is_fatal code then -EINVAL else 0)

/-- Modelled from the spec: the RTR connection loop (outside src/) closes the
session when a handler returns nonzero. -/
def rtr_session_closes (r : List OutPdu × Int) : Bool := r.2 != 0

/-- `warn_unexpected_pdu`: send Error Report `Unsupported PDU Type` echoing
the offending header, and fail with `-EINVAL` (the send's own result is
discarded). -/
def warn_unexpected_pdu (o : Nat → Int) (hdr : PduHeader) : List OutPdu × Int :=
  let r := err_pdu_send o [] ERR_PDU_UNSUP_PDU_TYPE (some hdr)
  (r.1, -EINVAL)

def handle_serial_notify_pdu (o : Nat → Int) (hdr : PduHeader) : List OutPdu × Int :=
  warn_unexpected_pdu o hdr

def handle_cache_response_pdu (o : Nat → Int) (hdr : PduHeader) : List OutPdu × Int :=
  warn_unexpected_pdu o hdr

def handle_ipv4_prefix_pdu (o : Nat → Int) (hdr : PduHeader) : List OutPdu × Int :=
  warn_unexpected_pdu o hdr

def handle_ipv6_prefix_pdu (o : Nat → Int) (hdr : PduHeader) : List OutPdu × Int :=
  warn_unexpected_pdu o hdr

def handle_end_of_data_pdu (o : Nat → Int) (hdr : PduHeader) : List OutPdu × Int :=
  warn_unexpected_pdu o hdr

def handle_cache_reset_pdu (o : Nat → Int) (hdr : PduHeader) : List OutPdu × Int :=
  warn_unexpected_pdu o hdr

def send_cache_response_pdu (o : Nat → Int) (tr : List OutPdu) : List OutPdu × Int :=
  sendPdu o tr OutPdu.cacheResponse

/-- `send_payload_pdus` of pdu_sender.c, modelled from the spec: serialize
one Payload PDU per VRP of the snapshot, in its (deterministic) order,
stopping at the first failed write. -/
def send_pdu_list (o : Nat → Int) (tr : List OutPdu) : List OutPdu → List OutPdu × Int
  | [] => (tr, 0)
  | p :: ps =>
    let r := sendPdu o tr p
    if r.2 ≠ 0 then r else send_pdu_list o r.1 ps

def send_payload_pdus (o : Nat → Int) (tr : List OutPdu) (snapshot : List VRP) :
    List OutPdu × Int :=
  send_pdu_list o tr (snapshot.map OutPdu.payload)

def send_end_of_data_pdu (o : Nat → Int) (tr : List OutPdu) : List OutPdu × Int :=
  sendPdu o tr OutPdu.endOfData

def send_cache_reset_pdu (o : Nat → Int) (tr : List OutPdu) : List OutPdu × Int :=
  sendPdu o tr OutPdu.cacheReset

/-- `send_commmon_exchange` (sic): Cache Response, then the Payload PDUs,
then End of Data, aborting on the first failed send. -/
def send_commmon_exchange (o : Nat → Int) (snapshot : List VRP) : List OutPdu × Int :=
  let r1 := send_cache_response_pdu o []
  if r1.2 ≠ 0 then r1
  else
    let r2 := send_payload_pdus o r1.1 snapshot
    if r2.2 ≠ 0 then r2
    else send_end_of_data_pdu o r2.1

/-- `handle_serial_query_pdu`: on a session-id mismatch, Error Report
`Corrupt Data` (RFC 6810/8210 quote in the source); otherwise dispatch on the
delta store's status for the router's serial.  The source's DIFF_AVAILABLE
arm carries the TODO "diff calculation between serials isn't quite ready yet,
so always respond with a cache reset". -/
def handle_serial_query_pdu (st : ServerState) (o : Nat → Int)
    (received : SerialQueryPdu) : List OutPdu × Int :=
  let version := received.header.protocol_version
  let session_id := st.sessionId version
  if received.header.session_id ≠ session_id then
    err_pdu_send o [] ERR_PDU_CORRUPT_DATA none
  else
    match deltas_db_status st.store (some received.serial_number) with
    | DeltaStatus.NO_DATA_AVAILABLE => err_pdu_send o [] ERR_PDU_NO_DATA_AVAILABLE none
    | DeltaStatus.DIFF_UNDETERMINED => send_cache_reset_pdu o []
    | DeltaStatus.DIFF_AVAILABLE => send_cache_reset_pdu o []
    | DeltaStatus.NO_DIFF =>
      let r1 := send_cache_response_pdu o []
      if r1.2 ≠ 0 then r1 else send_end_of_data_pdu o r1.1

/-- `handle_reset_query_pdu`: NO_DATA_AVAILABLE answers an Error Report,
DIFF_AVAILABLE the full `send_commmon_exchange`.  The remaining statuses hit
the source's `err(error, "Reached 'unreachable' code")`, which terminates the
process having sent nothing; the embedding returns `-EINVAL` with an empty
trace for that (unreachable) branch. -/
def handle_reset_query_pdu (st : ServerState) (o : Nat → Int)
    (_received : ResetQueryPdu) : List OutPdu × Int :=
  match deltas_db_status st.store none with
  | DeltaStatus.NO_DATA_AVAILABLE => err_pdu_send o [] ERR_PDU_NO_DATA_AVAILABLE none
  | DeltaStatus.DIFF_AVAILABLE => send_commmon_exchange o st.snapshot
  | _ => ([], -EINVAL)

/-! ## Helper lemmas -/

theorem join_worker_snd (acc : Option DbTable × Int) (t : ThreadState) :
    (join_worker acc t).2 = if t.error ≠ 0 then t.error else acc.2 := by
  by_cases he : t.error = 0
  all_goals simp only [join_worker, he, ne_eq, not_true_eq_false, not_false_eq_true,
    if_true, if_false, ite_true, ite_false]
  all_goals split <;> simp [he]

theorem foldl_join_worker_error (ts : List ThreadState) :
    ∀ acc : Option DbTable × Int, acc.2 ≠ 0 → (ts.foldl join_worker acc).2 ≠ 0 := by
  induction ts with
  | nil => intro acc h; simpa using h
  | cons t ts ih =>
    intro acc h
    refine ih _ ?_
    rw [join_worker_snd]
    by_cases he : t.error = 0 <;> simp [he, h]

theorem foldl_join_worker_mem_error (ts : List ThreadState) :
    ∀ acc : Option DbTable × Int, (∃ t ∈ ts, t.error ≠ 0) →
      (ts.foldl join_worker acc).2 ≠ 0 := by
  induction ts with
  | nil => intro acc h; simp at h
  | cons t ts ih =>
    intro acc ⟨u, hu, hne⟩
    rcases List.mem_cons.mp hu with h | h
    · subst h
      refine foldl_join_worker_error ts _ ?_
      rw [join_worker_snd]
      simp [hne]
    · exact ih _ ⟨u, h, hne⟩

theorem foldl_join_worker_ok (ts : List ThreadState) :
    ∀ d : DbTable, (∀ t ∈ ts, t.error = 0) →
      ts.foldl join_worker (some d, 0)
        = (some (d ++ (ts.map (fun t => t.db.getD [])).flatten), 0) := by
  induction ts with
  | nil => intro d _; simp
  | cons t ts ih =>
    intro d h
    have ht : t.error = 0 := h t (by simp)
    have hstep : join_worker (some d, 0) t = (some (db_table_join d t.db), 0) := by
      simp [join_worker, ht]
    rw [List.foldl_cons, hstep, db_table_join,
        ih (d ++ t.db.getD []) (fun u hu => h u (by simp [hu]))]
    simp [List.append_assoc]

theorem deferredLoop_eq (trav : DeferredCert → Int) (stack : List DeferredCert) :
    deferredLoop trav stack = (0, stack.map Traversal.child) := by
  induction stack with
  | nil => rfl
  | cons d rest ih => simp [deferredLoop, ih]

theorem find_newline_append (l rest : List Char) (h1 : '\n' ∉ l) (h2 : '\r' ∉ l) :
    find_newline (l ++ '\n' :: rest) = some (l, false, rest) := by
  induction l with
  | nil => simp [find_newline]
  | cons c l ih =>
    simp only [List.mem_cons, not_or] at h1 h2
    have hc1 : c ≠ '\n' := fun h => h1.1 h.symm
    have hc2 : c ≠ '\r' := fun h => h2.1 h.symm
    simp [find_newline, hc1, hc2, ih h1.2 h2.2]

theorem skip_comments_no_hash (fuel : Nat) (fc : List Char) (h : fc.head? ≠ some '#') :
    skip_comments (fuel + 1) fc = Except.ok fc := by
  cases fc with
  | nil => rfl
  | cons c rest =>
    have hc : c ≠ '#' := by
      intro he
      exact h (by simp [he])
    simp [skip_comments, hc]

theorem scheme_line_shape (l : List Char)
    (h : str_starts_with l (String.toList "rsync://") = true ∨
         str_starts_with l (String.toList "https://") = true) :
    is_blank l = false ∧ (∃ u, add_uri l = some u) ∧ l.head? ≠ some '#' := by
  rcases h with h | h
  · rw [str_starts_with, List.isPrefixOf_iff_prefix] at h
    obtain ⟨t, ht⟩ := h
    subst ht
    have hs : str_starts_with (String.toList "rsync://" ++ t) (String.toList "rsync://") = true := by
      rw [str_starts_with, List.isPrefixOf_iff_prefix]
      exact ⟨t, rfl⟩
    refine ⟨rfl, ⟨{ scheme := UriScheme.rsync, text := String.toList "rsync://" ++ t }, ?_⟩, by simp⟩
    simp only [add_uri]
    rw [if_pos hs]
  · rw [str_starts_with, List.isPrefixOf_iff_prefix] at h
    obtain ⟨t, ht⟩ := h
    subst ht
    have hs1 : str_starts_with (String.toList "https://" ++ t) (String.toList "rsync://") = false := rfl
    have hs2 : str_starts_with (String.toList "https://" ++ t) (String.toList "https://") = true := by
      rw [str_starts_with, List.isPrefixOf_iff_prefix]
      exact ⟨t, rfl⟩
    refine ⟨rfl, ⟨{ scheme := UriScheme.https, text := String.toList "https://" ++ t }, ?_⟩, by simp⟩
    simp only [add_uri]
    rw [hs1, if_neg (by simp), if_pos hs2]

theorem parse_uris_reaches_bad (good : List (List Char)) :
    ∀ (fuel : Nat) (acc : List TalUri) (bad tail : List Char),
      (∀ l ∈ good,
        (str_starts_with l (String.toList "rsync://") = true ∨
         str_starts_with l (String.toList "https://") = true) ∧ '\n' ∉ l ∧ '\r' ∉ l) →
      add_uri bad = none → is_blank bad = false → '\n' ∉ bad → '\r' ∉ bad →
      ((good.map (fun l => l ++ ['\n'])).flatten ++ bad ++ '\n' :: tail).length < fuel →
      parse_uris fuel ((good.map (fun l => l ++ ['\n'])).flatten ++ bad ++ '\n' :: tail) acc
        = Except.error (TalParseError.badScheme bad) := by
  induction good with
  | nil =>
    intro fuel acc bad tail _ hb1 hb2 hb3 hb4 hlen
    cases fuel with
    | zero => exact absurd hlen (Nat.not_lt_zero _)
    | succ m =>
      simp only [List.map_nil, List.flatten_nil, List.nil_append] at hlen ⊢
      rw [parse_uris, find_newline_append bad tail hb3 hb4]
      simp [hb2, hb1]
  | cons g gs ih =>
    intro fuel acc bad tail hg hb1 hb2 hb3 hb4 hlen
    cases fuel with
    | zero => exact absurd hlen (Nat.not_lt_zero _)
    | succ m =>
      have hgood := hg g (by simp)
      obtain ⟨hshape1, ⟨u, hu⟩, _⟩ := scheme_line_shape g hgood.1
      have hfile :
          ((g :: gs).map (fun l => l ++ ['\n'])).flatten ++ bad ++ '\n' :: tail
            = g ++ '\n' :: ((gs.map (fun l => l ++ ['\n'])).flatten ++ bad ++ '\n' :: tail) := by
        simp [List.append_assoc]
      rw [hfile] at hlen ⊢
      rw [parse_uris, find_newline_append g _ hgood.2.1 hgood.2.2]
      have hrest_ne :
          ((gs.map (fun l => l ++ ['\n'])).flatten ++ bad ++ '\n' :: tail).isEmpty = false := by
        simp
      have hrest_len :
          ((gs.map (fun l => l ++ ['\n'])).flatten ++ bad ++ '\n' :: tail).length < m := by
        simp only [List.length_append, List.length_cons] at hlen ⊢
        omega
      simp only [hshape1, if_false, Bool.false_eq_true, hu, hrest_ne,
        ite_false]
      exact ih m (acc ++ [u]) bad tail (fun l hl => hg l (by simp [hl])) hb1 hb2 hb3 hb4 hrest_len

theorem send_pdu_list_all_ok (o : Nat → Int) (ho : ∀ n, o n = 0) :
    ∀ (ps tr : List OutPdu), send_pdu_list o tr ps = (tr ++ ps, 0) := by
  intro ps
  induction ps with
  | nil => intro tr; simp [send_pdu_list]
  | cons p ps ih =>
    intro tr
    rw [send_pdu_list]
    simp [sendPdu, ho, ih (tr ++ [p])]

theorem deltas_db_status_none (s : DeltaStore) :
    deltas_db_status s none
      = if s.hasData then DeltaStatus.DIFF_AVAILABLE else DeltaStatus.NO_DATA_AVAILABLE := by
  cases h : s.hasData <;> simp [deltas_db_status, h]

/-! ## Claims -/

/-- C1: If any per-TAL validation worker finishes with a non-zero error code,
`perform_standalone_validation` (which joins all workers regardless) destroys
every accumulated table and returns NULL, so no publication occurs; if every
worker succeeds, it returns the table obtained by repeatedly joining the
per-TAL tables, in join order. -/
theorem c1_dispatcher_all_or_nothing (threads : List ThreadState) :
    ((∃ t ∈ threads, t.error ≠ 0) → perform_standalone_validation threads = none)
    ∧ ((∀ t ∈ threads, t.error = 0 ∧ t.db.isSome = true) → threads ≠ [] →
       perform_standalone_validation threads
         = some ((threads.map (fun t => t.db.getD [])).flatten)) := by
  constructor
  · intro hex
    have h := foldl_join_worker_mem_error threads (none, 0) hex
    simp [perform_standalone_validation, h]
  · intro hall hne
    cases threads with
    | nil => exact absurd rfl hne
    | cons t ts =>
      have ht := hall t (by simp)
      obtain ⟨d0, hd0⟩ := Option.isSome_iff_exists.mp ht.2
      have hstep : join_worker (none, 0) t = (some d0, 0) := by
        simp [join_worker, ht.1, hd0]
      have hrest := foldl_join_worker_ok ts d0 (fun u hu => (hall u (by simp [hu])).1)
      simp [perform_standalone_validation, List.foldl_cons, hstep, hrest, hd0]

/-- Witness for C1 at concrete worker lists: one failed worker discards
everything; two successful workers yield the joined table. -/
theorem c1_dispatcher_all_or_nothing_witness :
    perform_standalone_validation
        [{ error := -5, db := none }, { error := 0, db := some [VRP.roa 1 2 3 4 5] }] = none
    ∧ perform_standalone_validation
        [{ error := 0, db := some [VRP.roa 1 2 3 4 5] },
         { error := 0, db := some [VRP.roa 9 8 7 6 4] }]
      = some (([({ error := 0, db := some [VRP.roa 1 2 3 4 5] } : ThreadState),
                { error := 0, db := some [VRP.roa 9 8 7 6 4] }].map
            (fun t => t.db.getD [])).flatten) := by
  constructor
  · exact (c1_dispatcher_all_or_nothing _).1 ⟨{ error := -5, db := none }, by simp, by simp⟩
  · exact (c1_dispatcher_all_or_nothing _).2 (by decide) (by decide)

/-- C9: when every URI of a TAL is exhausted without a successful traversal
(`cache_download_alt` returns non-zero), the worker destroys its partially
filled `db_table` and leaves `thread->db` NULL, so a failed worker hands no
VRP — not even ones emitted before the failure — to the dispatcher; its error
code is the download error. -/
theorem c9_failed_worker_keeps_nothing (ie de : Int) (pt : DbTable) (hde : de ≠ 0) :
    (do_file_validation ie de pt).db = none
    ∧ (ie = 0 → (do_file_validation ie de pt).error = de) := by
  unfold do_file_validation
  by_cases hie : ie = 0
  · simp [hie, hde]
  · simp [hie]

/-- Witness for C9: a worker whose download failed with `-2`, after having
accumulated one ROA, reports `none` and error `-2`. -/
theorem c9_failed_worker_keeps_nothing_witness :
    (do_file_validation 0 (-2) [VRP.roa 1 2 3 4 5]).db = none
    ∧ (do_file_validation 0 (-2) [VRP.roa 1 2 3 4 5]).error = -2 := by
  have h := c9_failed_worker_keeps_nothing 0 (-2) [VRP.roa 1 2 3 4 5] (by decide)
  exact ⟨h.1, h.2 rfl⟩

/-- C5: once the root certificate of a TAL has validated successfully,
`handle_tal_uri` ignores the result of every deferred-certificate traversal
(the result is the same whatever errors the children produce) and returns 0
when the deferred stack is exhausted; the empty-stack pop sentinel `-ENOENT`
is normal termination, not an error; a non-zero result can only come from a
failure at or before the root. -/
theorem c5_subtree_errors_swallowed (inp : TalUriInput) (trav trav' : DeferredCert → Int) :
    (inp.prepError = 0 → uri_is_certificate inp.uri = true → inp.root_traverse_error = 0 →
      handle_tal_uri inp trav = handle_tal_uri inp trav'
      ∧ (handle_tal_uri inp trav).1 = 0)
    ∧ deferstack_pop [] = ((-ENOENT : Int), (none : Option (DeferredCert × List DeferredCert)))
    ∧ ((handle_tal_uri inp trav).1 ≠ 0 →
        inp.prepError ≠ 0 ∨ uri_is_certificate inp.uri = false ∨ inp.root_traverse_error ≠ 0) := by
  refine ⟨?_, rfl, ?_⟩
  · intro h1 h2 h3
    constructor
    · simp [handle_tal_uri, h1, h2, h3, deferredLoop_eq]
    · simp [handle_tal_uri, h1, h2, h3, deferredLoop_eq]
  · intro hne
    by_cases h1 : inp.prepError = 0
    · by_cases h2 : uri_is_certificate inp.uri = true
      · by_cases h3 : inp.root_traverse_error = 0
        · exact absurd (by simp [handle_tal_uri, h1, h2, h3, deferredLoop_eq]) hne
        · exact Or.inr (Or.inr h3)
      · exact Or.inr (Or.inl (by simpa using h2))
    · exact Or.inl h1

/-- Witness for C5: with a validated root and one deferred child, two
traversal oracles that fail the child differently yield the same result, 0. -/
theorem c5_subtree_errors_swallowed_witness :
    (handle_tal_uri
        { prepError := 0, uri := String.toList "rsync://a/ta.cer",
          root_traverse_error := 0, pubkey_state := PubkeyState.PKS_UNTESTED,
          deferred := [{ pp := 1, uri := 2 }] } (fun _ => -1)
      = handle_tal_uri
        { prepError := 0, uri := String.toList "rsync://a/ta.cer",
          root_traverse_error := 0, pubkey_state := PubkeyState.PKS_UNTESTED,
          deferred := [{ pp := 1, uri := 2 }] } (fun _ => 7))
    ∧ (handle_tal_uri
        { prepError := 0, uri := String.toList "rsync://a/ta.cer",
          root_traverse_error := 0, pubkey_state := PubkeyState.PKS_UNTESTED,
          deferred := [{ pp := 1, uri := 2 }] } (fun _ => -1)).1 = 0 :=
  (c5_subtree_errors_swallowed _ (fun _ => -1) (fun _ => 7)).1 rfl (by decide) rfl

/-- C10: for a TAL URI whose file name does not carry the `.cer` extension,
`handle_tal_uri` fails with EINVAL before attempting any certificate
traversal (the traversal trace is empty), even though the URI's download
already succeeded (`handle_tal_uri` only runs as the post-download visit
callback). -/
theorem c10_non_certificate_uri (inp : TalUriInput) (trav : DeferredCert → Int)
    (hprep : inp.prepError = 0) (hcer : uri_is_certificate inp.uri = false) :
    handle_tal_uri inp trav = ((EINVAL : Int), ([] : List Traversal)) := by
  simp [handle_tal_uri, hprep, hcer]

/-- Witness for C10: a manifest URI (`.mft`) is rejected with EINVAL and no
traversal. -/
theorem c10_non_certificate_uri_witness :
    handle_tal_uri
        { prepError := 0, uri := String.toList "rsync://a/b/c.mft",
          root_traverse_error := 0, pubkey_state := PubkeyState.PKS_UNTESTED,
          deferred := [] } (fun _ => 0)
      = ((EINVAL : Int), ([] : List Traversal)) :=
  c10_non_certificate_uri _ _ rfl (by decide)

/-- C2: an inbound Serial Query whose session id matches the server's and for
which the delta store reports DIFF_AVAILABLE is answered with a single Cache
Reset PDU (the source's downgrade, marked TODO) instead of a Cache Response /
Payload / End of Data exchange. -/
theorem c2_diff_available_downgraded (st : ServerState) (o : Nat → Int)
    (pdu : SerialQueryPdu)
    (hsess : pdu.header.session_id = st.sessionId pdu.header.protocol_version)
    (hst : deltas_db_status st.store (some pdu.serial_number) = DeltaStatus.DIFF_AVAILABLE) :
    (handle_serial_query_pdu st o pdu).1 = [OutPdu.cacheReset] := by
  simp [handle_serial_query_pdu, hsess, hst, send_cache_reset_pdu, sendPdu]

/-- Witness for C2: a matching Serial Query for an old serial held in the
history is answered by exactly one Cache Reset. -/
theorem c2_diff_available_downgraded_witness :
    (handle_serial_query_pdu
        { sessionId := fun _ => 7, lastSerial := 5,
          store := { hasData := true, currentSerial := 5, history := [3] },
          snapshot := [VRP.roa 65000 1 24 24 4] }
        (fun _ => 0)
        { header := { protocol_version := 1, pdu_type := 1, session_id := 7, length := 12 },
          serial_number := 3 }).1
      = [OutPdu.cacheReset] :=
  c2_diff_available_downgraded _ _ _ rfl (by decide)

/-- C3: an inbound Serial Query whose header session id differs from the
server's produces exactly one outbound PDU — an Error Report with code
Corrupt Data — without consulting the delta store (the answer is unchanged
under any delta store, snapshot, and last serial), and the handler's nonzero
result closes the connection. -/
theorem c3_session_mismatch_corrupt_data (st : ServerState) (o : Nat → Int)
    (pdu : SerialQueryPdu)
    (hsess : pdu.header.session_id ≠ st.sessionId pdu.header.protocol_version) :
    (handle_serial_query_pdu st o pdu).1
        = [OutPdu.errorReport ERR_PDU_CORRUPT_DATA none]
    ∧ rtr_session_closes (handle_serial_query_pdu st o pdu) = true
    ∧ (∀ (store' : DeltaStore) (snap' : List VRP) (serial' : Nat),
        handle_serial_query_pdu
            { sessionId := st.sessionId, lastSerial := serial',
              store := store', snapshot := snap' } o pdu
          = handle_serial_query_pdu st o pdu) := by
  refine ⟨?_, ?_, ?_⟩
  · simp [handle_serial_query_pdu, hsess, err_pdu_send, sendPdu]
  · by_cases h0 : o 0 = 0
    all_goals simp [handle_serial_query_pdu, hsess, err_pdu_send, sendPdu,
      err_pdu_is_fatal, ERR_PDU_CORRUPT_DATA, EINVAL, rtr_session_closes, h0]
  · intro store' snap' serial'
    simp [handle_serial_query_pdu, hsess]

/-- Witness for C3: a Serial Query carrying session id 9 against a server
whose session id is 7. -/
theorem c3_session_mismatch_corrupt_data_witness :
    (handle_serial_query_pdu
        { sessionId := fun _ => 7, lastSerial := 5,
          store := { hasData := true, currentSerial := 5, history := [3] },
          snapshot := [] }
        (fun _ => 0)
        { header := { protocol_version := 1, pdu_type := 1, session_id := 9, length := 12 },
          serial_number := 3 }).1
      = [OutPdu.errorReport ERR_PDU_CORRUPT_DATA none]
    ∧ rtr_session_closes
        (handle_serial_query_pdu
          { sessionId := fun _ => 7, lastSerial := 5,
            store := { hasData := true, currentSerial := 5, history := [3] },
            snapshot := [] }
          (fun _ => 0)
          { header := { protocol_version := 1, pdu_type := 1, session_id := 9, length := 12 },
            serial_number := 3 }) = true := by
  have h := c3_session_mismatch_corrupt_data
    { sessionId := fun _ => 7, lastSerial := 5,
      store := { hasData := true, currentSerial := 5, history := [3] },
      snapshot := [] }
    (fun _ => 0)
    { header := { protocol_version := 1, pdu_type := 1, session_id := 9, length := 12 },
      serial_number := 3 }
    (by decide)
  exact ⟨h.1, h.2.1⟩

/-- C4: every server-to-router PDU type received inbound (Serial Notify,
Cache Response, IPv4 Prefix, IPv6 Prefix, End of Data, Cache Reset) is
answered with exactly one Error Report PDU carrying code Unsupported PDU
Type (5) and echoing the offending header, and the handler returns `-EINVAL`;
no other outbound PDU is produced. -/
theorem c4_unexpected_pdu_types (o : Nat → Int) (hdr : PduHeader) :
    handle_serial_notify_pdu o hdr
        = ([OutPdu.errorReport ERR_PDU_UNSUP_PDU_TYPE (some hdr)], -EINVAL)
    ∧ handle_cache_response_pdu o hdr
        = ([OutPdu.errorReport ERR_PDU_UNSUP_PDU_TYPE (some hdr)], -EINVAL)
    ∧ handle_ipv4_prefix_pdu o hdr
        = ([OutPdu.errorReport ERR_PDU_UNSUP_PDU_TYPE (some hdr)], -EINVAL)
    ∧ handle_ipv6_prefix_pdu o hdr
        = ([OutPdu.errorReport ERR_PDU_UNSUP_PDU_TYPE (some hdr)], -EINVAL)
    ∧ handle_end_of_data_pdu o hdr
        = ([OutPdu.errorReport ERR_PDU_UNSUP_PDU_TYPE (some hdr)], -EINVAL)
    ∧ handle_cache_reset_pdu o hdr
        = ([OutPdu.errorReport ERR_PDU_UNSUP_PDU_TYPE (some hdr)], -EINVAL) :=
  ⟨rfl, rfl, rfl, rfl, rfl, rfl⟩

/-- Witness for C4 at a concrete header and send oracle. -/
theorem c4_unexpected_pdu_types_witness :
    handle_serial_notify_pdu (fun _ => 0)
        { protocol_version := 1, pdu_type := 0, session_id := 7, length := 12 }
      = ([OutPdu.errorReport ERR_PDU_UNSUP_PDU_TYPE
            (some { protocol_version := 1, pdu_type := 0, session_id := 7, length := 12 })],
         -EINVAL) :=
  (c4_unexpected_pdu_types (fun _ => 0)
    { protocol_version := 1, pdu_type := 0, session_id := 7, length := 12 }).1

/-- C6: an inbound Reset Query is answered, when the delta store reports
NO_DATA_AVAILABLE, with a single Error Report `No Data Available` and the
session stays open (the handler returns 0); for every other status the store
can report for a no-serial query, the handler sends a Cache Response, then
the full-snapshot Payload PDUs, then an End of Data PDU, in that order
(stated under a send oracle that always succeeds). -/
theorem c6_reset_query_exchange (st : ServerState) (o : Nat → Int) (pdu : ResetQueryPdu)
    (ho : ∀ n, o n = 0) :
    (deltas_db_status st.store none = DeltaStatus.NO_DATA_AVAILABLE →
      handle_reset_query_pdu st o pdu = ([OutPdu.errorReport ERR_PDU_NO_DATA_AVAILABLE none], 0)
      ∧ rtr_session_closes (handle_reset_query_pdu st o pdu) = false)
    ∧ (deltas_db_status st.store none ≠ DeltaStatus.NO_DATA_AVAILABLE →
      (handle_reset_query_pdu st o pdu).1
        = OutPdu.cacheResponse :: (st.snapshot.map OutPdu.payload ++ [OutPdu.endOfData])) := by
  constructor
  · intro hst
    have h : handle_reset_query_pdu st o pdu
        = ([OutPdu.errorReport ERR_PDU_NO_DATA_AVAILABLE none], 0) := by
      simp [handle_reset_query_pdu, hst, err_pdu_send, sendPdu, ho 0,
        err_pdu_is_fatal, ERR_PDU_NO_DATA_AVAILABLE]
    exact ⟨h, by simp [rtr_session_closes, h]⟩
  · intro hst
    have hda : deltas_db_status st.store none = DeltaStatus.DIFF_AVAILABLE := by
      rw [deltas_db_status_none] at hst ⊢
      cases h : st.store.hasData
      · rw [h] at hst; simp at hst
      · simp
    have hexch : send_commmon_exchange o st.snapshot
        = ([OutPdu.cacheResponse] ++ st.snapshot.map OutPdu.payload ++ [OutPdu.endOfData], 0) := by
      rw [send_commmon_exchange]
      simp [send_cache_response_pdu, send_payload_pdus, send_end_of_data_pdu, sendPdu, ho,
        send_pdu_list_all_ok o ho]
    simp [handle_reset_query_pdu, hda, hexch]

/-- Witness for C6 with one published ROA: Cache Response, one Payload, End
of Data, in order. -/
theorem c6_reset_query_exchange_witness :
    (handle_reset_query_pdu
        { sessionId := fun _ => 7, lastSerial := 5,
          store := { hasData := true, currentSerial := 5, history := [] },
          snapshot := [VRP.roa 65000 1 24 24 4] }
        (fun _ => 0)
        { header := { protocol_version := 1, pdu_type := 2, session_id := 0, length := 8 } }).1
      = OutPdu.cacheResponse ::
          (([VRP.roa 65000 1 24 24 4].map OutPdu.payload) ++ [OutPdu.endOfData]) :=
  (c6_reset_query_exchange
    { sessionId := fun _ => 7, lastSerial := 5,
      store := { hasData := true, currentSerial := 5, history := [] },
      snapshot := [VRP.roa 65000 1 24 24 4] }
    (fun _ => 0) _ (fun _ => rfl)).2 (by decide)

/-- The canonical TAL file that "ends at the blank-line separator, with no
SubjectPublicKeyInfo content after it": one URI line, then the blank
separator line, then end of file. -/
def tal_ending_at_separator : List Char := String.toList "rsync://example.net/rpki/ta.cer\n\n"

def tal_ending_at_separator_uri : TalUri :=
  { scheme := UriScheme.rsync, text := String.toList "rsync://example.net/rpki/ta.cer" }

/-- C7 counterexample: on a TAL file ending at the blank-line separator the
parser runs past the URI section and reaches the base64 decode with the empty
remainder; so whatever `base64_decode` (not under src/) does on empty input,
the outcome is "Cannot decode the public key" or success — the reported
failure is never the "TAL seems to end prematurely" error the claim names. -/
theorem c7_counterexample_separator_not_premature :
    read_content_pre tal_ending_at_separator
        = Except.ok ([tal_ending_at_separator_uri], [])
    ∧ read_content tal_ending_at_separator (fun _ => none)
        = Except.error TalParseError.cannotDecode
    ∧ read_content tal_ending_at_separator (fun _ => some [])
        = Except.ok { uris := [tal_ending_at_separator_uri], spki := [] } := by
  refine ⟨rfl, rfl, rfl⟩

/-- C7 as amended: parsing a TAL file that ends at the blank-line separator
reaches the SPKI base64 decode with empty input; it fails — with the "Cannot
decode the public key" error — exactly when the decode of the empty remainder
fails, and it never reports the "TAL seems to end prematurely" error (that
error is reserved for a line that the end of the file cuts short). -/
theorem c7_amended_separator_outcome (b64 : List Char → Option (List Nat)) :
    (b64 [] = none →
      read_content tal_ending_at_separator b64 = Except.error TalParseError.cannotDecode)
    ∧ (∀ spki, b64 [] = some spki →
      read_content tal_ending_at_separator b64
        = Except.ok { uris := [tal_ending_at_separator_uri], spki := spki })
    ∧ (∀ l, read_content tal_ending_at_separator b64
        ≠ Except.error (TalParseError.premature l)) := by
  have hpre : read_content_pre tal_ending_at_separator
      = Except.ok ([tal_ending_at_separator_uri], []) := rfl
  refine ⟨?_, ?_, ?_⟩
  · intro h
    simp [read_content, hpre, h]
  · intro spki h
    simp [read_content, hpre, h]
  · intro l
    simp only [read_content, hpre]
    cases h : b64 [] <;> simp [h]

/-- Witness for the amended C7, with a decoder that rejects empty input. -/
theorem c7_amended_separator_outcome_witness :
    read_content tal_ending_at_separator (fun _ => none)
      = Except.error TalParseError.cannotDecode :=
  (c7_amended_separator_outcome (fun _ => none)).1 rfl

/-- C8: for every TAL file whose URI block contains a line beginning with
neither `rsync://` nor `https://`, parsing fails with the hard
non-RSYNC/HTTPS-URI error and no TAL structure is produced (`tal_init`
returns the error; the partially built URI list never escapes).  The file is
any sequence of well-formed URI lines followed by the offending
newline-terminated line and arbitrary further content; when the bad line is
the first line of the file it must not begin with `#` (a leading `#` line
would be a comment, not a URI). -/
theorem c8_bad_scheme_is_hard_error (good : List (List Char)) (bad tail : List Char)
    (b64 : List Char → Option (List Nat))
    (hgood : ∀ l ∈ good,
      (str_starts_with l (String.toList "rsync://") = true ∨
       str_starts_with l (String.toList "https://") = true) ∧ '\n' ∉ l ∧ '\r' ∉ l)
    (hbad1 : str_starts_with bad (String.toList "rsync://") = false)
    (hbad2 : str_starts_with bad (String.toList "https://") = false)
    (hbad3 : is_blank bad = false)
    (hbad4 : '\n' ∉ bad) (hbad5 : '\r' ∉ bad)
    (hbad6 : good = [] → bad.head? ≠ some '#') :
    tal_init ((good.map (fun l => l ++ ['\n'])).flatten ++ bad ++ '\n' :: tail) b64
      = Except.error (TalParseError.badScheme bad) := by
  have hadd : add_uri bad = none := by
    unfold add_uri
    rw [hbad1, hbad2]
    simp
  have hhead :
      ((good.map (fun l => l ++ ['\n'])).flatten ++ bad ++ '\n' :: tail).head? ≠ some '#' := by
    cases good with
    | nil =>
      have hbne : bad ≠ [] := by
        intro h
        rw [h] at hbad3
        simp [is_blank] at hbad3
      cases bad with
      | nil => exact absurd rfl hbne
      | cons c cs => simpa using hbad6 rfl
    | cons g gs =>
      have hg := scheme_line_shape g (hgood g (by simp)).1
      cases g with
      | nil => exact absurd hg.1 (by decide)
      | cons c cs => simpa using hg.2.2
  have hskip :
      skip_comments (((good.map (fun l => l ++ ['\n'])).flatten ++ bad ++ '\n' :: tail).length + 1)
          ((good.map (fun l => l ++ ['\n'])).flatten ++ bad ++ '\n' :: tail)
        = Except.ok ((good.map (fun l => l ++ ['\n'])).flatten ++ bad ++ '\n' :: tail) :=
    skip_comments_no_hash _ _ hhead
  have hparse := parse_uris_reaches_bad good
    (((good.map (fun l => l ++ ['\n'])).flatten ++ bad ++ '\n' :: tail).length + 1)
    [] bad tail hgood hadd hbad3 hbad4 hbad5 (Nat.lt_succ_self _)
  rw [tal_init, read_content, read_content_pre, hskip]
  dsimp only
  rw [hparse]

/-- Witness for C8: a file with one good rsync URI followed by an `ftp://`
line is rejected with the bad-scheme error. -/
theorem c8_bad_scheme_is_hard_error_witness :
    tal_init (([String.toList "rsync://a/b.cer"].map (fun l => l ++ ['\n'])).flatten
        ++ String.toList "ftp://x" ++ '\n' :: String.toList "QUJD\n")
        (fun _ => some [])
      = Except.error (TalParseError.badScheme (String.toList "ftp://x")) :=
  c8_bad_scheme_is_hard_error [String.toList "rsync://a/b.cer"]
    (String.toList "ftp://x") (String.toList "QUJD\n") (fun _ => some [])
    (by decide) (by decide) (by decide) (by decide) (by decide) (by decide)
    (by intro h; exact absurd h (by decide))
